import Mathlib

/-!
Shallow embedding of the smart-todo backend (two variants).

Variant 1 is the unauthenticated server (health, list with query filters,
create, update, delete, toggle, subtask update). Variant 2 is the
authenticated server (register, login, JWT gate, per-user scoping,
filter-by-priorities; it has no toggle, health or subtask routes).

The document store is modelled as a list of records in insertion order.
`find?` models `findOne` (first matching document), `findOneAndUpdate` and
`findOneAndDelete` model the mongoose calls of the same names restricted to
the plain-object update documents the handlers use (mongoose casts a plain
object to a `$set` of exactly the listed fields). Timestamps are naturals
(milliseconds). Generated identifiers (`uuidv4`, mongo `_id`) are passed in
as parameters, since identifier generation is an external primitive.
-/

namespace SmartTodo

/-- HTTP methods used by the routers. -/
inductive Method where
  | get
  | post
  | put
  | delete
  | patch
deriving DecidableEq, Repr

/-- A stored subtask record (schema: generated `id`, required `title`,
`completed` defaulting to false). -/
structure Subtask where
  id : String
  title : String
  completed : Bool
deriving DecidableEq, Repr

/-- A subtask as it appears in a create request body: `id` and `completed`
may be omitted and are then filled from the schema defaults. -/
structure SubtaskIn where
  id : Option String
  title : String
  completed : Option Bool
deriving DecidableEq, Repr

/-- Materialise the i-th submitted subtask, applying the schema defaults:
a fresh generated id when none was supplied, `completed := false` when
omitted. -/
def mkSubtask (freshSub : Nat → String) (i : Nat) (s : SubtaskIn) : Subtask :=
  { id := s.id.getD (freshSub i)
    title := s.title
    completed := s.completed.getD false }

/-- The fields the create handlers destructure from the request body
(`title, description, priority, category, tags, dueDate, subtasks`); any
other body field, `completed` and a client-supplied top-level `id`
included, is ignored by the handler. -/
structure CreateBody where
  title : Option String
  description : Option String
  priority : Option String
  category : Option String
  tags : Option (List String)
  dueDate : Option Nat
  subtasks : Option (List SubtaskIn)
deriving DecidableEq, Repr

/-- The enumerated priority values of the schema. -/
def priorities : List String := ["low", "medium", "high"]

/-- Validation mongoose performs on save: `title`, `category` required
(a required String rejects both a missing value and the empty string),
`priority` required and inside the enumeration, every subtask title
required. -/
def validCreate (b : CreateBody) : Bool :=
  (match b.title with | some t => decide (t ≠ "") | none => false) &&
  (match b.priority with | some p => priorities.contains p | none => false) &&
  (match b.category with | some c => decide (c ≠ "") | none => false) &&
  (b.subtasks.getD []).all (fun s => decide (s.title ≠ ""))

/-- mongoose `findOneAndUpdate(filter, update, new: true)` over the
collection: rewrite the first document satisfying `p` with `f`, returning
the updated document (or none) together with the new collection. -/
def findOneAndUpdate {α : Type} (p : α → Bool) (f : α → α) : List α → Option α × List α
  | [] => (none, [])
  | a :: l =>
    if p a then (some (f a), f a :: l)
    else
      let r := findOneAndUpdate p f l
      (r.1, a :: r.2)

/-- mongoose `findOneAndDelete(filter)`: remove the first document
satisfying `p`, returning it (or none) together with the new collection. -/
def findOneAndDelete {α : Type} (p : α → Bool) : List α → Option α × List α
  | [] => (none, [])
  | a :: l =>
    if p a then (some a, l)
    else
      let r := findOneAndDelete p l
      (r.1, a :: r.2)

/-- JavaScript `String.prototype.split(sep)` for a one-character separator,
on the character list: cut at every occurrence of the separator. -/
def splitOnChar (sep : Char) : List Char → List (List Char)
  | [] => [[]]
  | c :: cs =>
    let r := splitOnChar sep cs
    if c = sep then [] :: r
    else (c :: r.headD []) :: r.tail

/-- The query parameters read by the variant-1 list handler. Each is the
raw query-string value (absent = none). -/
structure Query where
  category : Option String
  priority : Option String
  completed : Option String
  search : Option String
deriving DecidableEq, Repr

/-- JavaScript truthiness of an optional string parameter: absent and the
empty string are both falsy (`if (category) ...`). -/
def truthy : Option String → Option String
  | none => none
  | some s => if s = "" then none else some s

/-- One pattern character against one text character under the `i` flag of
`new RegExp(pat, "i")`: a dot matches any character; any other character is
taken literally, compared case-insensitively. This models the fragment of
JavaScript regular expressions whose patterns contain no special character
other than the dot. -/
def charMatch (p c : Char) : Bool := p = '.' || p.toLower = c.toLower

/-- Match the whole pattern against a prefix of the text. -/
def matchHere : List Char → List Char → Bool
  | [], _ => true
  | _ :: _, [] => false
  | p :: ps, c :: cs => charMatch p c && matchHere ps cs

/-- `new RegExp(pat, "i").test(txt)` for the modelled fragment: the pattern
matches starting at some position of the text. -/
def regexTest (pat txt : String) : Bool :=
  txt.data.tails.any (fun suf => matchHere pat.data suf)

/-- The characters that are special in JavaScript regular expressions. -/
def regexSpecial : List Char :=
  ['.', '\\', '^', '$', '*', '+', '?', '(', ')', '[', ']', '\x7b', '\x7d', '|']

/-- Lower-cased character sequence of a string. -/
def lowerStr (s : String) : List Char := s.data.map Char.toLower

/-- Case-insensitive substring test, the relation named by the spec for the
`search` filter. -/
def substrCI (s txt : String) : Bool :=
  (lowerStr txt).tails.any (fun suf => (lowerStr s).isPrefixOf suf)

namespace V1

/-- A stored todo document of variant 1 (no owner field). -/
structure Todo where
  id : String
  title : String
  description : Option String
  completed : Bool
  priority : String
  category : String
  tags : List String
  dueDate : Option Nat
  subtasks : List Subtask
  createdAt : Nat
  updatedAt : Nat
deriving DecidableEq, Repr

/-- The order of `.sort(createdAt: -1)`: later creations first. The sort
itself is the store engine's; it is modelled by a sort of the matching
documents under this order. -/
def byCreatedAtDesc (a b : Todo) : Prop := b.createdAt ≤ a.createdAt

instance : DecidableRel byCreatedAtDesc := fun a b => Nat.decLe b.createdAt a.createdAt

instance : IsTotal Todo byCreatedAtDesc := ⟨fun a b => Nat.le_total b.createdAt a.createdAt⟩

instance : IsTrans Todo byCreatedAtDesc := ⟨fun _ _ _ hab hbc => Nat.le_trans hbc hab⟩

/-- The `search` part of the variant-1 list filter: the regex built from
the search string is tested against `title`, `description` and `tags` (a
regex against an array field matches when some element matches; a missing
`description` matches nothing). -/
def searchMatches (s : String) (t : Todo) : Bool :=
  regexTest s t.title ||
  (match t.description with | some d => regexTest s d | none => false) ||
  t.tags.any (fun tag => regexTest s tag)

/-- The document predicate the variant-1 list handler builds from the query:
`category`/`priority`/`search` only when truthy, `completed` whenever
present, compared for string equality with "true". -/
def matchesFilter (q : Query) (t : Todo) : Bool :=
  (match truthy q.category with | some c => t.category = c | none => true) &&
  (match truthy q.priority with | some p => t.priority = p | none => true) &&
  (match q.completed with | some v => t.completed = (v = "true") | none => true) &&
  (match truthy q.search with | some s => searchMatches s t | none => true)

/-- GET /api/todos of variant 1: the matching documents sorted by
`createdAt` descending. -/
def listTodos (q : Query) (store : List Todo) : List Todo :=
  (store.filter (matchesFilter q)).insertionSort byCreatedAtDesc

/-- The spec's reading of the `search` filter: case-insensitive substring
of the title, the description, or some tag. Written from the spec's words,
to be compared with `searchMatches`. -/
def specSearchMatches (s : String) (t : Todo) : Bool :=
  substrCI s t.title ||
  (match t.description with | some d => substrCI s d | none => false) ||
  t.tags.any (fun tag => substrCI s tag)

/-- POST /api/todos of variant 1: validate, fill schema defaults
(generated id, `completed := false`, both timestamps `now`, empty `tags`
and `subtasks` when omitted), append to the collection. Returns
(status, created document, new collection). -/
def postTodo (b : CreateBody) (freshId : String) (freshSub : Nat → String) (now : Nat)
    (store : List Todo) : Nat × Option Todo × List Todo :=
  if validCreate b then
    let t : Todo :=
      { id := freshId
        title := b.title.getD ""
        description := b.description
        completed := false
        priority := b.priority.getD ""
        category := b.category.getD ""
        tags := b.tags.getD []
        dueDate := b.dueDate
        subtasks := (b.subtasks.getD []).enum.map (fun p => mkSubtask freshSub p.1 p.2)
        createdAt := now
        updatedAt := now }
    (201, some t, store ++ [t])
  else (400, none, store)

/-- PATCH /api/todos/:id/toggle of variant 1: find the first document with
the given id, flip `completed`, refresh `updatedAt`, save it back in place.
Returns (status, returned document, new collection). -/
def toggleTodo (tid : String) (now : Nat) (store : List Todo) : Nat × Option Todo × List Todo :=
  match findOneAndUpdate (fun t => t.id = tid)
      (fun t => { t with completed := !t.completed, updatedAt := now }) store with
  | (none, _) => (404, none, store)
  | (some t, st) => (200, some t, st)

end V1

namespace V2

/-- A stored todo document of variant 2 (with the required owner field
`userId`, set at creation from the authenticated caller). -/
structure Todo where
  id : String
  userId : String
  title : String
  description : Option String
  completed : Bool
  priority : String
  category : String
  tags : List String
  dueDate : Option Nat
  subtasks : List Subtask
  createdAt : Nat
  updatedAt : Nat
deriving DecidableEq, Repr

/-- The order of `.sort(createdAt: -1)`: later creations first. -/
def byCreatedAtDesc (a b : Todo) : Prop := b.createdAt ≤ a.createdAt

instance : DecidableRel byCreatedAtDesc := fun a b => Nat.decLe b.createdAt a.createdAt

instance : IsTotal Todo byCreatedAtDesc := ⟨fun a b => Nat.le_total b.createdAt a.createdAt⟩

instance : IsTrans Todo byCreatedAtDesc := ⟨fun _ _ _ hab hbc => Nat.le_trans hbc hab⟩

/-- The request body of PUT /api/todos/:id: an arbitrary partial record.
Every schema path may appear, `id`, `userId`, `createdAt` and `updatedAt`
included, because the handler spreads the whole body into the update
document. -/
structure UpdateBody where
  id : Option String
  userId : Option String
  title : Option String
  description : Option String
  completed : Option Bool
  priority : Option String
  category : Option String
  tags : Option (List String)
  dueDate : Option Nat
  subtasks : Option (List Subtask)
  createdAt : Option Nat
  updatedAt : Option Nat
deriving DecidableEq, Repr

/-- The effect of the update document `( ...req.body, updatedAt: Date.now() )`
applied by `findOneAndUpdate` as a `$set`: every field present in the body
overwrites the stored field, every absent field is left alone, and
`updatedAt` is always the current time (the spread puts it after the body,
so a body-supplied `updatedAt` is overridden). -/
def UpdateBody.apply (b : UpdateBody) (now : Nat) (t : Todo) : Todo :=
  { id := b.id.getD t.id
    userId := b.userId.getD t.userId
    title := b.title.getD t.title
    description := match b.description with | some d => some d | none => t.description
    completed := b.completed.getD t.completed
    priority := b.priority.getD t.priority
    category := b.category.getD t.category
    tags := b.tags.getD t.tags
    dueDate := match b.dueDate with | some d => some d | none => t.dueDate
    subtasks := b.subtasks.getD t.subtasks
    createdAt := b.createdAt.getD t.createdAt
    updatedAt := now }

/-- GET /api/todos of variant 2: `Todo.find( userId: req.user.id )` sorted
by `createdAt` descending. The handler never reads `req.query`, so the
query parameters play no part; the parameter `q` is kept in the signature
to state that fact. -/
def getTodos (uid : String) (q : Query) (store : List Todo) : List Todo :=
  (store.filter (fun t => t.userId = uid)).insertionSort byCreatedAtDesc

/-- The spec's reading of the variant-2 list: owner restriction plus the
optional filters (exact category, exact priority, boolean completed,
case-insensitive substring search). Written from the spec's words, to be
compared with `getTodos`. -/
def specMatchesFilter (q : Query) (t : Todo) : Bool :=
  (match q.category with | some c => t.category = c | none => true) &&
  (match q.priority with | some p => t.priority = p | none => true) &&
  (match q.completed with | some v => t.completed = (v = "true") | none => true) &&
  (match q.search with
   | some s =>
     substrCI s t.title ||
     (match t.description with | some d => substrCI s d | none => false) ||
     t.tags.any (fun tag => substrCI s tag)
   | none => true)

/-- The variant-2 list as the spec describes it: the caller's documents
that pass every supplied filter, sorted by `createdAt` descending. -/
def specList (uid : String) (q : Query) (store : List Todo) : List Todo :=
  (store.filter (fun t => t.userId = uid && specMatchesFilter q t)).insertionSort byCreatedAtDesc

/-- POST /api/todos of variant 2: like variant 1 but `userId` is taken from
the authenticated caller (`req.user.id`), never from the body. -/
def postTodo (uid : String) (b : CreateBody) (freshId : String) (freshSub : Nat → String)
    (now : Nat) (store : List Todo) : Nat × Option Todo × List Todo :=
  if validCreate b then
    let t : Todo :=
      { id := freshId
        userId := uid
        title := b.title.getD ""
        description := b.description
        completed := false
        priority := b.priority.getD ""
        category := b.category.getD ""
        tags := b.tags.getD []
        dueDate := b.dueDate
        subtasks := (b.subtasks.getD []).enum.map (fun p => mkSubtask freshSub p.1 p.2)
        createdAt := now
        updatedAt := now }
    (201, some t, store ++ [t])
  else (400, none, store)

/-- PUT /api/todos/:id of variant 2:
`findOneAndUpdate( id: req.params.id, userId: req.user.id , updatedData, new: true)`,
404 when no document matches. Returns (status, returned document, new
collection). -/
def putTodo (uid tid : String) (b : UpdateBody) (now : Nat) (store : List Todo) :
    Nat × Option Todo × List Todo :=
  match findOneAndUpdate (fun t => t.id = tid && t.userId = uid) (b.apply now) store with
  | (none, _) => (404, none, store)
  | (some t, st) => (200, some t, st)

/-- DELETE /api/todos/:id of variant 2:
`findOneAndDelete( id: req.params.id, userId: req.user.id )`, 404 when no
document matches. Returns (status, deleted document, new collection). -/
def deleteTodo (uid tid : String) (store : List Todo) : Nat × Option Todo × List Todo :=
  match findOneAndDelete (fun t => t.id = tid && t.userId = uid) store with
  | (none, _) => (404, none, store)
  | (some t, st) => (200, some t, st)

/-- GET /api/todos/filter of variant 2: `priorities` is split on commas
(an absent or empty parameter, being falsy, yields the empty list), and the
caller's documents whose priority is in that list are returned sorted by
`createdAt` descending. -/
def filterByPriorities (uid : String) (prioritiesParam : Option String) (store : List Todo) :
    List Todo :=
  let arr : List String :=
    match prioritiesParam with
    | none => []
    | some s => if s = "" then [] else (splitOnChar ',' s.data).map (fun l => String.mk l)
  (store.filter (fun t => t.userId = uid && arr.contains t.priority)).insertionSort byCreatedAtDesc

/-- The identity the JWT carries and the gate attaches to the request
(`jwt.sign( id: user._id, username: user.username , ...)`). -/
structure Identity where
  id : String
  username : String
deriving DecidableEq, Repr

/-- The token the middleware extracts:
`req.headers.authorization?.split(" ")[1]` — the second space-separated
word of the header, when the header and that word exist. -/
def extractToken (header : Option String) : Option String :=
  match header with
  | none => none
  | some h => ((splitOnChar ' ' h.data).map (fun l => String.mk l)).get? 1

/-- The two failures of the authentication middleware. -/
inductive AuthErr where
  | unauthorized
  | forbidden
deriving DecidableEq, Repr

/-- The `authenticate` middleware: 401 when no token was extracted (an
absent header, a header with no second word, or an empty second word — all
falsy in `if (!token)`); 403 when `jwt.verify` rejects the token (bad
signature or expired); otherwise the decoded identity. Verification is the
external `jwt.verify` primitive, passed in as `verify` (none = rejected). -/
def authenticate (verify : String → Option Identity) (header : Option String) :
    Except AuthErr Identity :=
  match extractToken header with
  | none => .error .unauthorized
  | some tk =>
    if tk = "" then .error .unauthorized
    else
      match verify tk with
      | none => .error .forbidden
      | some u => .ok u

/-- The body of a response, as far as the claims need to distinguish it. -/
inductive RespBody where
  | errMsg (msg : String)
  | todoOne (t : Todo)
  | todoList (ts : List Todo)
  | message (msg : String)
deriving DecidableEq, Repr

/-- A JSON response: status code and body. -/
structure Resp where
  status : Nat
  body : RespBody
deriving DecidableEq, Repr

/-- An incoming request to the variant-2 server, carrying every piece of
input some todo handler reads. -/
structure Request where
  method : Method
  path : List String
  authHeader : Option String
  prioritiesParam : Option String
  createBody : CreateBody
  updateBody : UpdateBody
deriving Repr

/-- Whether method and path match one of the five todo routes variant 2
declares (GET and POST /api/todos, GET /api/todos/filter, PUT and DELETE
/api/todos/:id). Variant 2 declares no PATCH route and no toggle or
subtask paths. -/
def todosRoute (m : Method) (path : List String) : Bool :=
  match m, path with
  | .get, ["api", "todos"] => true
  | .post, ["api", "todos"] => true
  | .get, ["api", "todos", "filter"] => true
  | .put, ["api", "todos", _] => true
  | .delete, ["api", "todos", _] => true
  | _, _ => false

/-- The todo handlers of variant 2, run with the identity `u` the gate
attached. Returns the response and the new collection. -/
def handleTodos (u : Identity) (req : Request) (freshId : String) (freshSub : Nat → String)
    (now : Nat) (store : List Todo) : Resp × List Todo :=
  match req.method, req.path with
  | .get, ["api", "todos"] =>
    (⟨200, .todoList (getTodos u.id ⟨none, none, none, none⟩ store)⟩, store)
  | .get, ["api", "todos", "filter"] =>
    (⟨200, .todoList (filterByPriorities u.id req.prioritiesParam store)⟩, store)
  | .post, ["api", "todos"] =>
    match postTodo u.id req.createBody freshId freshSub now store with
    | (_, some t, st) => (⟨201, .todoOne t⟩, st)
    | (_, none, st) => (⟨400, .errMsg "Validation error"⟩, st)
  | .put, ["api", "todos", tid] =>
    match putTodo u.id tid req.updateBody now store with
    | (_, some t, st) => (⟨200, .todoOne t⟩, st)
    | (_, none, st) => (⟨404, .errMsg "Todo not found"⟩, st)
  | .delete, ["api", "todos", tid] =>
    match deleteTodo u.id tid store with
    | (_, some _, st) => (⟨200, .message "Todo deleted successfully"⟩, st)
    | (_, none, st) => (⟨404, .errMsg "Todo not found"⟩, st)
  | _, _ => (⟨404, .errMsg "Cannot route"⟩, store)

/-- The variant-2 router for requests under /api/todos: a request matching
one of the five declared todo routes passes through the `authenticate`
gate and, only on success, reaches its handler; a request under /api/todos
matching no declared route (for example PATCH /api/todos/:id/toggle, a
route variant 2 does not declare) falls through every route to the
framework default 404 and touches neither the gate nor the collection.
Register and login live on other paths and are modelled separately. -/
def dispatch (verify : String → Option Identity) (req : Request) (freshId : String)
    (freshSub : Nat → String) (now : Nat) (store : List Todo) : Resp × List Todo :=
  if todosRoute req.method req.path then
    match authenticate verify req.authHeader with
    | .error .unauthorized => (⟨401, .errMsg "Unauthorized"⟩, store)
    | .error .forbidden => (⟨403, .errMsg "Invalid token"⟩, store)
    | .ok u => handleTodos u req freshId freshSub now store
  else (⟨404, .errMsg "Cannot route"⟩, store)

/-- A stored user record: `id` models the storage engine's generated
`_id`; `password` holds the bcrypt hash. -/
structure User where
  id : String
  username : String
  password : String
deriving DecidableEq, Repr

/-- The observable outcome of POST /api/login: either the generic
400 "Invalid credentials" response, or 200 with a token signed over the
user's id and username. -/
inductive LoginResp where
  | invalidCredentials
  | token (id : String) (username : String)
deriving DecidableEq, Repr

/-- Status code of a login response. -/
def LoginResp.status : LoginResp → Nat
  | .invalidCredentials => 400
  | .token _ _ => 200

/-- Error message of a login response, when it is an error. -/
def LoginResp.message : LoginResp → Option String
  | .invalidCredentials => some "Invalid credentials"
  | .token _ _ => none

/-- POST /api/login: `User.findOne( username )`; when no user is found or
`bcrypt.compare` (the external hash comparison, passed in as `compare`)
rejects the password, the one generic invalid-credentials response; else a
token over (id, username). -/
def login (compare : String → String → Bool) (uname pwd : String) (users : List User) :
    LoginResp :=
  match users.find? (fun u => u.username = uname) with
  | none => .invalidCredentials
  | some u => if compare pwd u.password then .token u.id u.username else .invalidCredentials

end V2

/-! Concrete records used to exercise the theorems on closed inputs. -/

/-- A concrete variant-1 todo. -/
def sampleTodo : V1.Todo :=
  { id := "t1", title := "Buy Milk", description := none, completed := false, priority := "low"
    category := "errand", tags := [], dueDate := none, subtasks := [], createdAt := 0
    updatedAt := 0 }

/-- A second concrete variant-1 todo, completed. -/
def sampleTodoDone : V1.Todo :=
  { id := "t2", title := "Rest", description := none, completed := true, priority := "high"
    category := "home", tags := ["evening"], dueDate := none, subtasks := [], createdAt := 3
    updatedAt := 3 }

/-- A concrete variant-2 todo owned by user "u1". -/
def sampleTodoA : V2.Todo :=
  { id := "t1", userId := "u1", title := "Task", description := none, completed := false
    priority := "low", category := "a", tags := [], dueDate := none, subtasks := []
    createdAt := 0, updatedAt := 0 }

/-- A concrete variant-2 todo owned by user "u2". -/
def sampleTodoB : V2.Todo :=
  { id := "t9", userId := "u2", title := "Other", description := none, completed := false
    priority := "high", category := "b", tags := [], dueDate := none, subtasks := []
    createdAt := 1, updatedAt := 1 }

/-- An update body with every field absent. -/
def emptyBody : V2.UpdateBody :=
  { id := none, userId := none, title := none, description := none, completed := none
    priority := none, category := none, tags := none, dueDate := none, subtasks := none
    createdAt := none, updatedAt := none }

/-- A create body with every field absent. -/
def emptyCreate : CreateBody :=
  { title := none, description := none, priority := none, category := none, tags := none
    dueDate := none, subtasks := none }

/-- The create body of the spec's example: POST /api/todos with
title "Buy milk", priority "low", category "errand". -/
def milkCreate : CreateBody :=
  { title := some "Buy milk", description := none, priority := some "low"
    category := some "errand", tags := none, dueDate := none, subtasks := none }

/-! Helper lemmas about the store operations. -/

theorem findOneAndUpdate_eq_none {α : Type} (p : α → Bool) (f : α → α) :
    ∀ l : List α, l.find? p = none → findOneAndUpdate p f l = (none, l)
  | [], _ => rfl
  | a :: l, h => by
    have hpa : p a = false := by
      cases hpa : p a
      · rfl
      · rw [List.find?_cons_of_pos _ hpa] at h
        cases h
    rw [List.find?_cons_of_neg _ (by simp [hpa])] at h
    simp [findOneAndUpdate, hpa, findOneAndUpdate_eq_none p f l h]

theorem findOneAndUpdate_fst {α : Type} (p : α → Bool) (f : α → α) :
    ∀ (l : List α) (t : α), l.find? p = some t → (findOneAndUpdate p f l).1 = some (f t)
  | a :: l, t, h => by
    cases hpa : p a
    · rw [List.find?_cons_of_neg _ (by simp [hpa])] at h
      simp [findOneAndUpdate, hpa, findOneAndUpdate_fst p f l t h]
    · rw [List.find?_cons_of_pos _ hpa] at h
      cases h
      simp [findOneAndUpdate, hpa]

theorem find?_findOneAndUpdate {α : Type} (p : α → Bool) (f : α → α) :
    ∀ (l : List α) (t : α), l.find? p = some t → p (f t) = true →
      (findOneAndUpdate p f l).2.find? p = some (f t)
  | a :: l, t, h, hf => by
    cases hpa : p a
    · rw [List.find?_cons_of_neg _ (by simp [hpa])] at h
      simp [findOneAndUpdate, hpa]
      exact find?_findOneAndUpdate p f l t h hf
    · rw [List.find?_cons_of_pos _ hpa] at h
      cases h
      simp [findOneAndUpdate, hpa]
      exact Or.inl hf

theorem findOneAndDelete_eq_none {α : Type} (p : α → Bool) :
    ∀ l : List α, l.find? p = none → findOneAndDelete p l = (none, l)
  | [], _ => rfl
  | a :: l, h => by
    have hpa : p a = false := by
      cases hpa : p a
      · rfl
      · rw [List.find?_cons_of_pos _ hpa] at h
        cases h
    rw [List.find?_cons_of_neg _ (by simp [hpa])] at h
    simp [findOneAndDelete, hpa, findOneAndDelete_eq_none p l h]

theorem any_congr {α : Type} {f g : α → Bool} :
    ∀ l : List α, (∀ x ∈ l, f x = g x) → l.any f = l.any g
  | [], _ => rfl
  | a :: l, h => by
    rw [List.any_cons, List.any_cons, h a (by simp),
      any_congr l (fun x hx => h x (List.mem_cons_of_mem a hx))]

theorem tails_map {α β : Type} (f : α → β) :
    ∀ l : List α, (l.map f).tails = l.tails.map (List.map f)
  | [] => rfl
  | a :: l => by
    simp only [List.map_cons, List.tails_cons, tails_map f l]

theorem enumFrom_map_via_snd {α β : Type} (g : α → β) :
    ∀ (n : Nat) (l : List α), (l.enumFrom n).map (fun p => g p.2) = l.map g
  | _, [] => rfl
  | n, a :: l => by
    simp only [List.enumFrom, List.map_cons, enumFrom_map_via_snd g (n + 1) l]

/-- C4: a toggle on a stored todo flips its completed flag (and only reports
200 with the flipped record), and a second toggle with no interleaving
operation restores the original completed value. -/
theorem toggle_flips_and_involutive (tid : String) (now₁ now₂ : Nat)
    (store : List V1.Todo) (t : V1.Todo)
    (h : store.find? (fun u => u.id = tid) = some t) :
    (V1.toggleTodo tid now₁ store).1 = 200 ∧
    (V1.toggleTodo tid now₁ store).2.1
      = some { t with completed := !t.completed, updatedAt := now₁ } ∧
    ((V1.toggleTodo tid now₂ (V1.toggleTodo tid now₁ store).2.2).2.1.map V1.Todo.completed)
      = some t.completed := by
  have hid : t.id = tid := by simpa using List.find?_some h
  have hstep := findOneAndUpdate_fst (fun u => decide (u.id = tid))
    (fun u => { u with completed := !u.completed, updatedAt := now₁ }) store t h
  have hmid := find?_findOneAndUpdate (fun u => decide (u.id = tid))
    (fun u => { u with completed := !u.completed, updatedAt := now₁ }) store t h
    (by simp [hid])
  have hstep₂ := findOneAndUpdate_fst (fun u => decide (u.id = tid))
    (fun u => { u with completed := !u.completed, updatedAt := now₂ })
    (findOneAndUpdate (fun u => decide (u.id = tid))
      (fun u => { u with completed := !u.completed, updatedAt := now₁ }) store).2
    { t with completed := !t.completed, updatedAt := now₁ } hmid
  unfold V1.toggleTodo
  cases hr : findOneAndUpdate (fun u => decide (u.id = tid))
      (fun u => { u with completed := !u.completed, updatedAt := now₁ }) store with
  | mk r1 r2 =>
    rw [hr] at hstep hmid
    simp only at hstep hmid
    subst hstep
    refine ⟨rfl, rfl, ?_⟩
    simp only
    cases hr₂ : findOneAndUpdate (fun u => decide (u.id = tid))
        (fun u => { u with completed := !u.completed, updatedAt := now₂ }) r2 with
    | mk s1 s2 =>
      rw [hr] at hstep₂
      simp only at hstep₂
      rw [hr₂] at hstep₂
      simp only at hstep₂
      subst hstep₂
      simp [Bool.not_not]

/-- C4 witness at a concrete store: toggling the stored todo twice returns
completed to its original value. -/
theorem toggle_flips_and_involutive_witness :
    ([sampleTodo].find? (fun u => u.id = "t1") = some sampleTodo) ∧
    ((V1.toggleTodo "t1" 1 [sampleTodo]).1 = 200 ∧
     (V1.toggleTodo "t1" 1 [sampleTodo]).2.1
       = some { sampleTodo with completed := !sampleTodo.completed, updatedAt := 1 } ∧
     ((V1.toggleTodo "t1" 2 (V1.toggleTodo "t1" 1 [sampleTodo]).2.2).2.1.map V1.Todo.completed)
       = some sampleTodo.completed) :=
  ⟨by decide, toggle_flips_and_involutive "t1" 1 2 [sampleTodo] sampleTodo (by decide)⟩

/-- C5: a valid create returns 201 and a record whose id is the fresh
generated one (non-empty and distinct from every stored id), whose
createdAt equals its updatedAt, which echoes the submitted fields, with
completed false and omitted subtasks defaulting to the empty sequence. -/
theorem create_valid_response (b : CreateBody) (freshId : String) (freshSub : Nat → String)
    (now : Nat) (store : List V1.Todo)
    (hb : validCreate b = true) (hfresh : freshId ≠ "")
    (huniq : ∀ u ∈ store, u.id ≠ freshId) :
    (V1.postTodo b freshId freshSub now store).1 = 201 ∧
    ∃ t, (V1.postTodo b freshId freshSub now store).2.1 = some t ∧
      (V1.postTodo b freshId freshSub now store).2.2 = store ++ [t] ∧
      t.id = freshId ∧ t.id ≠ "" ∧ (∀ u ∈ store, u.id ≠ t.id) ∧
      t.createdAt = t.updatedAt ∧
      (∀ x, b.title = some x → t.title = x) ∧
      t.description = b.description ∧
      (∀ x, b.priority = some x → t.priority = x) ∧
      (∀ x, b.category = some x → t.category = x) ∧
      (∀ x, b.tags = some x → t.tags = x) ∧
      t.dueDate = b.dueDate ∧
      t.subtasks.map Subtask.title = (b.subtasks.getD []).map SubtaskIn.title ∧
      t.subtasks.map Subtask.completed
        = (b.subtasks.getD []).map (fun s => s.completed.getD false) ∧
      t.completed = false ∧
      (b.subtasks = none → t.subtasks = []) := by
  unfold V1.postTodo
  rw [if_pos hb]
  refine ⟨rfl, _, rfl, rfl, rfl, hfresh, huniq, rfl, ?_, rfl, ?_, ?_, ?_, rfl, ?_, ?_, rfl, ?_⟩
  · intro x hx
    simp [hx]
  · intro x hx
    simp [hx]
  · intro x hx
    simp [hx]
  · intro x hx
    simp [hx]
  · rw [List.enum, List.map_map]
    exact enumFrom_map_via_snd SubtaskIn.title 0 (b.subtasks.getD [])
  · rw [List.enum, List.map_map]
    exact enumFrom_map_via_snd (fun s => s.completed.getD false) 0 (b.subtasks.getD [])
  · intro hx
    simp [hx]

/-- C5 witness: the spec's example create body at a fresh id and empty
store. -/
theorem create_valid_response_witness :
    (validCreate milkCreate = true ∧ "id1" ≠ "" ∧ (∀ u ∈ ([] : List V1.Todo), u.id ≠ "id1")) ∧
    ((V1.postTodo milkCreate "id1" (fun _ => "s") 5 []).1 = 201 ∧
     ∃ t, (V1.postTodo milkCreate "id1" (fun _ => "s") 5 []).2.1 = some t ∧
      (V1.postTodo milkCreate "id1" (fun _ => "s") 5 []).2.2 = [] ++ [t] ∧
      t.id = "id1" ∧ t.id ≠ "" ∧ (∀ u ∈ ([] : List V1.Todo), u.id ≠ t.id) ∧
      t.createdAt = t.updatedAt ∧
      (∀ x, milkCreate.title = some x → t.title = x) ∧
      t.description = milkCreate.description ∧
      (∀ x, milkCreate.priority = some x → t.priority = x) ∧
      (∀ x, milkCreate.category = some x → t.category = x) ∧
      (∀ x, milkCreate.tags = some x → t.tags = x) ∧
      t.dueDate = milkCreate.dueDate ∧
      t.subtasks.map Subtask.title = (milkCreate.subtasks.getD []).map SubtaskIn.title ∧
      t.subtasks.map Subtask.completed
        = (milkCreate.subtasks.getD []).map (fun s => s.completed.getD false) ∧
      t.completed = false ∧
      (milkCreate.subtasks = none → t.subtasks = [])) :=
  ⟨⟨by decide, by decide, by simp⟩,
    create_valid_response milkCreate "id1" (fun _ => "s") 5 [] (by decide) (by decide) (by simp)⟩

/-- C6: a successful variant-2 update reports 200 with the rewritten
record, sets updatedAt to the current time so that it strictly grows past
the prior value whenever time has advanced, and leaves every field absent
from the body at its prior value. -/
theorem update_refreshes_updatedAt (uid tid : String) (b : V2.UpdateBody) (now : Nat)
    (store : List V2.Todo) (t : V2.Todo)
    (hfind : store.find? (fun u => u.id = tid && u.userId = uid) = some t)
    (htime : t.updatedAt < now) :
    (V2.putTodo uid tid b now store).1 = 200 ∧
    (V2.putTodo uid tid b now store).2.1 = some (b.apply now t) ∧
    (b.apply now t).updatedAt = now ∧
    t.updatedAt < (b.apply now t).updatedAt ∧
    (b.id = none → (b.apply now t).id = t.id) ∧
    (b.userId = none → (b.apply now t).userId = t.userId) ∧
    (b.title = none → (b.apply now t).title = t.title) ∧
    (b.description = none → (b.apply now t).description = t.description) ∧
    (b.completed = none → (b.apply now t).completed = t.completed) ∧
    (b.priority = none → (b.apply now t).priority = t.priority) ∧
    (b.category = none → (b.apply now t).category = t.category) ∧
    (b.tags = none → (b.apply now t).tags = t.tags) ∧
    (b.dueDate = none → (b.apply now t).dueDate = t.dueDate) ∧
    (b.subtasks = none → (b.apply now t).subtasks = t.subtasks) ∧
    (b.createdAt = none → (b.apply now t).createdAt = t.createdAt) := by
  have hstep := findOneAndUpdate_fst (fun u => u.id = tid && u.userId = uid)
    (b.apply now) store t hfind
  unfold V2.putTodo
  cases hr : findOneAndUpdate (fun u => decide (u.id = tid) && decide (u.userId = uid))
      (b.apply now) store with
  | mk r1 r2 =>
    rw [hr] at hstep
    simp only at hstep
    subst hstep
    refine ⟨rfl, rfl, rfl, htime, ?_, ?_, ?_, ?_, ?_, ?_, ?_, ?_, ?_, ?_, ?_⟩
    all_goals intro hx; simp [V2.UpdateBody.apply, hx]

/-- C6 witness: an empty-body update on a concrete stored todo at a later
time. -/
theorem update_refreshes_updatedAt_witness :
    ([sampleTodoA].find? (fun u => u.id = "t1" && u.userId = "u1") = some sampleTodoA ∧
      sampleTodoA.updatedAt < 7) ∧
    ((V2.putTodo "u1" "t1" emptyBody 7 [sampleTodoA]).1 = 200 ∧
     (V2.putTodo "u1" "t1" emptyBody 7 [sampleTodoA]).2.1
       = some (emptyBody.apply 7 sampleTodoA) ∧
     (emptyBody.apply 7 sampleTodoA).updatedAt = 7 ∧
     sampleTodoA.updatedAt < (emptyBody.apply 7 sampleTodoA).updatedAt ∧
     (emptyBody.id = none → (emptyBody.apply 7 sampleTodoA).id = sampleTodoA.id) ∧
     (emptyBody.userId = none → (emptyBody.apply 7 sampleTodoA).userId = sampleTodoA.userId) ∧
     (emptyBody.title = none → (emptyBody.apply 7 sampleTodoA).title = sampleTodoA.title) ∧
     (emptyBody.description = none →
       (emptyBody.apply 7 sampleTodoA).description = sampleTodoA.description) ∧
     (emptyBody.completed = none →
       (emptyBody.apply 7 sampleTodoA).completed = sampleTodoA.completed) ∧
     (emptyBody.priority = none →
       (emptyBody.apply 7 sampleTodoA).priority = sampleTodoA.priority) ∧
     (emptyBody.category = none →
       (emptyBody.apply 7 sampleTodoA).category = sampleTodoA.category) ∧
     (emptyBody.tags = none → (emptyBody.apply 7 sampleTodoA).tags = sampleTodoA.tags) ∧
     (emptyBody.dueDate = none →
       (emptyBody.apply 7 sampleTodoA).dueDate = sampleTodoA.dueDate) ∧
     (emptyBody.subtasks = none →
       (emptyBody.apply 7 sampleTodoA).subtasks = sampleTodoA.subtasks) ∧
     (emptyBody.createdAt = none →
       (emptyBody.apply 7 sampleTodoA).createdAt = sampleTodoA.createdAt)) :=
  ⟨⟨by decide, by decide⟩,
    update_refreshes_updatedAt "u1" "t1" emptyBody 7 [sampleTodoA] sampleTodoA
      (by decide) (by decide)⟩

/-- C3: exhibit of the code slip. The variant-2 update handler spreads the
whole request body into the update document, so a body carrying `id` or
`userId` rewrites those fields: the owner of todo "t1" sends an update
whose body sets id := "evil" and userId := "u2", the handler answers 200,
and the stored record now carries the new id and owner, contradicting the
spec's immutability of both fields. -/
theorem update_overwrites_id_and_userId :
    (V2.putTodo "u1" "t1"
      { emptyBody with id := some "evil", userId := some "u2" } 5 [sampleTodoA]).1 = 200 ∧
    (V2.putTodo "u1" "t1"
      { emptyBody with id := some "evil", userId := some "u2" } 5 [sampleTodoA]).2.2
      = [{ sampleTodoA with id := "evil", userId := "u2", updatedAt := 5 }] ∧
    ({ sampleTodoA with id := "evil", userId := "u2", updatedAt := 5 } : V2.Todo).id
      ≠ sampleTodoA.id ∧
    ({ sampleTodoA with id := "evil", userId := "u2", updatedAt := 5 } : V2.Todo).userId
      ≠ sampleTodoA.userId := by
  decide

/-- C1: when a variant-2 caller names a todo it does not own (every stored
todo with that id belongs to someone else), Update and Delete answer 404
and leave the store unchanged, with the same status and returned document
as on a store from which that todo is erased; a Toggle request matches no
declared variant-2 route at all, so it receives the router's default 404,
bypassing even the gate, and touches nothing. -/
theorem ownership_scoped_mutation_not_found (uid tid : String) (b : V2.UpdateBody)
    (now : Nat) (store : List V2.Todo) (t : V2.Todo)
    (hmem : t ∈ store) (hid : t.id = tid) (hother : t.userId ≠ uid)
    (hall : ∀ u ∈ store, u.id = tid → u.userId ≠ uid)
    (verify : String → Option V2.Identity) (header : Option String)
    (pp : Option String) (cb : CreateBody) (freshId : String) (freshSub : Nat → String) :
    V2.putTodo uid tid b now store = (404, none, store) ∧
    V2.deleteTodo uid tid store = (404, none, store) ∧
    V2.dispatch verify
      { method := .patch, path := ["api", "todos", tid, "toggle"], authHeader := header
        prioritiesParam := pp, createBody := cb, updateBody := b }
      freshId freshSub now store = (⟨404, .errMsg "Cannot route"⟩, store) ∧
    (V2.putTodo uid tid b now (store.filter (fun u => decide (u.id ≠ tid)))).1
      = (V2.putTodo uid tid b now store).1 ∧
    (V2.putTodo uid tid b now (store.filter (fun u => decide (u.id ≠ tid)))).2.1
      = (V2.putTodo uid tid b now store).2.1 ∧
    (V2.deleteTodo uid tid (store.filter (fun u => decide (u.id ≠ tid)))).1
      = (V2.deleteTodo uid tid store).1 ∧
    (V2.deleteTodo uid tid (store.filter (fun u => decide (u.id ≠ tid)))).2.1
      = (V2.deleteTodo uid tid store).2.1 := by
  have hnone : store.find? (fun u => decide (u.id = tid) && decide (u.userId = uid)) = none := by
    rw [List.find?_eq_none]
    intro x hx
    simp only [Bool.and_eq_true, decide_eq_true_eq, not_and]
    intro hxid
    exact hall x hx hxid
  have hnone' : (store.filter (fun u => decide (u.id ≠ tid))).find?
      (fun u => decide (u.id = tid) && decide (u.userId = uid)) = none := by
    rw [List.find?_eq_none]
    intro x hx
    have hxid : x.id ≠ tid := by simpa using (List.mem_filter.mp hx).2
    simp [hxid]
  have hput : V2.putTodo uid tid b now store = (404, none, store) := by
    unfold V2.putTodo
    rw [findOneAndUpdate_eq_none _ _ store hnone]
  have hdel : V2.deleteTodo uid tid store = (404, none, store) := by
    unfold V2.deleteTodo
    rw [findOneAndDelete_eq_none _ store hnone]
  have hput' : V2.putTodo uid tid b now (store.filter (fun u => decide (u.id ≠ tid)))
      = (404, none, store.filter (fun u => decide (u.id ≠ tid))) := by
    unfold V2.putTodo
    rw [findOneAndUpdate_eq_none _ _ _ hnone']
  have hdel' : V2.deleteTodo uid tid (store.filter (fun u => decide (u.id ≠ tid)))
      = (404, none, store.filter (fun u => decide (u.id ≠ tid))) := by
    unfold V2.deleteTodo
    rw [findOneAndDelete_eq_none _ _ hnone']
  refine ⟨hput, hdel, rfl, ?_, ?_, ?_, ?_⟩
  · rw [hput', hput]
  · rw [hput', hput]
  · rw [hdel', hdel]
  · rw [hdel', hdel]

/-- C1 witness: user "u1" targeting the todo of user "u2" on a concrete
two-todo store. -/
theorem ownership_scoped_mutation_not_found_witness :
    (sampleTodoB ∈ [sampleTodoA, sampleTodoB] ∧ sampleTodoB.id = "t9" ∧
      sampleTodoB.userId ≠ "u1" ∧
      ∀ u ∈ [sampleTodoA, sampleTodoB], u.id = "t9" → u.userId ≠ "u1") ∧
    (V2.putTodo "u1" "t9" emptyBody 5 [sampleTodoA, sampleTodoB]
        = (404, none, [sampleTodoA, sampleTodoB]) ∧
     V2.deleteTodo "u1" "t9" [sampleTodoA, sampleTodoB]
        = (404, none, [sampleTodoA, sampleTodoB]) ∧
     V2.dispatch (fun _ => none)
       { method := .patch, path := ["api", "todos", "t9", "toggle"], authHeader := none
         prioritiesParam := none, createBody := emptyCreate, updateBody := emptyBody }
       "f" (fun _ => "s") 5 [sampleTodoA, sampleTodoB]
        = (⟨404, .errMsg "Cannot route"⟩, [sampleTodoA, sampleTodoB]) ∧
     (V2.putTodo "u1" "t9" emptyBody 5
        ([sampleTodoA, sampleTodoB].filter (fun u => decide (u.id ≠ "t9")))).1
       = (V2.putTodo "u1" "t9" emptyBody 5 [sampleTodoA, sampleTodoB]).1 ∧
     (V2.putTodo "u1" "t9" emptyBody 5
        ([sampleTodoA, sampleTodoB].filter (fun u => decide (u.id ≠ "t9")))).2.1
       = (V2.putTodo "u1" "t9" emptyBody 5 [sampleTodoA, sampleTodoB]).2.1 ∧
     (V2.deleteTodo "u1" "t9"
        ([sampleTodoA, sampleTodoB].filter (fun u => decide (u.id ≠ "t9")))).1
       = (V2.deleteTodo "u1" "t9" [sampleTodoA, sampleTodoB]).1 ∧
     (V2.deleteTodo "u1" "t9"
        ([sampleTodoA, sampleTodoB].filter (fun u => decide (u.id ≠ "t9")))).2.1
       = (V2.deleteTodo "u1" "t9" [sampleTodoA, sampleTodoB]).2.1) :=
  ⟨⟨by decide, by decide, by decide, by decide⟩,
    ownership_scoped_mutation_not_found "u1" "t9" emptyBody 5 [sampleTodoA, sampleTodoB]
      sampleTodoB (by decide) (by decide) (by decide) (by decide)
      (fun _ => none) none none emptyCreate "f" (fun _ => "s")⟩

/-- C7: the two login failure causes — unknown username, and known
username with a password the hash comparison rejects — produce the same
response: the one generic 400 "Invalid credentials". -/
theorem login_failure_indistinguishable
    (compare₁ compare₂ : String → String → Bool) (uname₁ pwd₁ uname₂ pwd₂ : String)
    (users₁ users₂ : List V2.User) (u : V2.User)
    (h₁ : users₁.find? (fun v => v.username = uname₁) = none)
    (h₂ : users₂.find? (fun v => v.username = uname₂) = some u)
    (h₃ : compare₂ pwd₂ u.password = false) :
    V2.login compare₁ uname₁ pwd₁ users₁ = V2.login compare₂ uname₂ pwd₂ users₂ ∧
    (V2.login compare₁ uname₁ pwd₁ users₁).status = 400 ∧
    (V2.login compare₁ uname₁ pwd₁ users₁).message = some "Invalid credentials" := by
  unfold V2.login
  rw [h₁, h₂]
  simp [h₃, V2.LoginResp.status, V2.LoginResp.message]

/-- C7 witness: an empty user store versus a store holding alice with a
rejecting comparison. -/
theorem login_failure_indistinguishable_witness :
    (([] : List V2.User).find? (fun v => v.username = "bob") = none ∧
     [({ id := "1", username := "alice", password := "h" } : V2.User)].find?
        (fun v => v.username = "alice")
       = some { id := "1", username := "alice", password := "h" } ∧
     (fun _ _ => false : String → String → Bool) "pw"
        ({ id := "1", username := "alice", password := "h" } : V2.User).password = false) ∧
    (V2.login (fun _ _ => false) "bob" "pw" []
       = V2.login (fun _ _ => false) "alice" "pw"
           [{ id := "1", username := "alice", password := "h" }] ∧
     (V2.login (fun _ _ => false) "bob" "pw" []).status = 400 ∧
     (V2.login (fun _ _ => false) "bob" "pw" []).message = some "Invalid credentials") :=
  ⟨⟨by decide, by decide, by decide⟩,
    login_failure_indistinguishable (fun _ _ => false) (fun _ _ => false) "bob" "pw"
      "alice" "pw" [] [{ id := "1", username := "alice", password := "h" }]
      { id := "1", username := "alice", password := "h" } (by decide) (by decide) (by decide)⟩

/-- C8: on every declared variant-2 todo route, a request from which no
token can be extracted answers 401 with the store untouched; an extracted
non-empty token the verifier rejects answers 403 with the store untouched;
a verified token runs the todo handler with the decoded identity. -/
theorem auth_gate_spec (verify : String → Option V2.Identity) (req : V2.Request)
    (freshId : String) (freshSub : Nat → String) (now : Nat) (store : List V2.Todo)
    (hroute : V2.todosRoute req.method req.path = true) :
    ((V2.extractToken req.authHeader = none ∨ V2.extractToken req.authHeader = some "") →
      V2.dispatch verify req freshId freshSub now store
        = (⟨401, .errMsg "Unauthorized"⟩, store)) ∧
    (∀ tk, V2.extractToken req.authHeader = some tk → tk ≠ "" → verify tk = none →
      V2.dispatch verify req freshId freshSub now store
        = (⟨403, .errMsg "Invalid token"⟩, store)) ∧
    (∀ tk u, V2.extractToken req.authHeader = some tk → tk ≠ "" → verify tk = some u →
      V2.dispatch verify req freshId freshSub now store
        = V2.handleTodos u req freshId freshSub now store) := by
  refine ⟨?_, ?_, ?_⟩
  · rintro (h | h) <;>
      simp [V2.dispatch, hroute, V2.authenticate, h]
  · intro tk htk hne hv
    simp [V2.dispatch, hroute, V2.authenticate, htk, hne, hv]
  · intro tk u htk hne hv
    simp [V2.dispatch, hroute, V2.authenticate, htk, hne, hv]

/-- C8 witness: the three gate outcomes on GET /api/todos over a concrete
store. -/
theorem auth_gate_spec_witness :
    (V2.todosRoute .get ["api", "todos"] = true) ∧
    (V2.dispatch (fun _ => none)
       { method := .get, path := ["api", "todos"], authHeader := none
         prioritiesParam := none, createBody := emptyCreate, updateBody := emptyBody }
       "f" (fun _ => "s") 5 [sampleTodoA] = (⟨401, .errMsg "Unauthorized"⟩, [sampleTodoA]) ∧
     V2.dispatch (fun _ => none)
       { method := .get, path := ["api", "todos"], authHeader := some "Bearer tok"
         prioritiesParam := none, createBody := emptyCreate, updateBody := emptyBody }
       "f" (fun _ => "s") 5 [sampleTodoA] = (⟨403, .errMsg "Invalid token"⟩, [sampleTodoA]) ∧
     V2.dispatch (fun _ => some { id := "u1", username := "alice" })
       { method := .get, path := ["api", "todos"], authHeader := some "Bearer tok"
         prioritiesParam := none, createBody := emptyCreate, updateBody := emptyBody }
       "f" (fun _ => "s") 5 [sampleTodoA]
       = (⟨200, .todoList [sampleTodoA]⟩, [sampleTodoA])) := by
  constructor
  · decide
  refine ⟨?_, ?_, ?_⟩
  · exact (auth_gate_spec (fun _ => none)
      { method := .get, path := ["api", "todos"], authHeader := none
        prioritiesParam := none, createBody := emptyCreate, updateBody := emptyBody }
      "f" (fun _ => "s") 5 [sampleTodoA] (by decide)).1 (Or.inl (by decide))
  · exact (auth_gate_spec (fun _ => none)
      { method := .get, path := ["api", "todos"], authHeader := some "Bearer tok"
        prioritiesParam := none, createBody := emptyCreate, updateBody := emptyBody }
      "f" (fun _ => "s") 5 [sampleTodoA] (by decide)).2.1 "tok" (by decide) (by decide)
      (by decide)
  · have h := (auth_gate_spec (fun _ => some { id := "u1", username := "alice" })
      { method := .get, path := ["api", "todos"], authHeader := some "Bearer tok"
        prioritiesParam := none, createBody := emptyCreate, updateBody := emptyBody }
      "f" (fun _ => "s") 5 [sampleTodoA] (by decide)).2.2 "tok"
      { id := "u1", username := "alice" } (by decide) (by decide) (by decide)
    rw [h]
    decide

/-! Search: the modelled regex fragment agrees with case-insensitive
substring matching exactly when the pattern has no special character. -/

theorem matchHere_eq_of_literal (pat : List Char)
    (hlit : pat.all (fun c => !(regexSpecial.contains c)) = true) :
    ∀ txt : List Char, matchHere pat txt
      = (pat.map Char.toLower).isPrefixOf (txt.map Char.toLower) := by
  induction pat with
  | nil =>
    intro txt
    simp [matchHere, List.isPrefixOf]
  | cons p ps ih =>
    have hall := hlit
    rw [List.all_cons, Bool.and_eq_true] at hall
    have hp : regexSpecial.contains p = false := by simpa using hall.1
    have hpd : p ≠ '.' := by
      intro hcontra
      subst hcontra
      simp [regexSpecial] at hp
    have hps : ps.all (fun c => !(regexSpecial.contains c)) = true := hall.2
    intro txt
    cases txt with
    | nil => simp [matchHere, List.isPrefixOf]
    | cons c cs =>
      simp only [matchHere, charMatch, List.map_cons, List.isPrefixOf,
        ih hps cs, hpd, decide_False, Bool.false_or]
      cases hbe : p.toLower == c.toLower
      · simp [beq_iff_eq] at hbe
        simp [hbe]
      · simp [beq_iff_eq] at hbe
        simp [hbe]

theorem regexTest_eq_substrCI (pat txt : String)
    (hlit : pat.data.all (fun c => !(regexSpecial.contains c)) = true) :
    regexTest pat txt = substrCI pat txt := by
  unfold regexTest substrCI lowerStr
  rw [tails_map, List.any_map]
  exact any_congr _ (fun suf _ => by
    rw [matchHere_eq_of_literal pat.data hlit suf]
    rfl)

/-- C9 counterexample: the variant-1 search treats the search string as a
regular expression, so "a.c" (the dot a wildcard) retrieves a todo titled
"abc" although "a.c" is not a case-insensitive substring of any of its
fields — refuting the claim that List with search=s returns exactly the
todos with s as substring. -/
theorem search_regex_not_substring_cex :
    V1.listTodos ⟨none, none, none, some "a.c"⟩ [{ sampleTodo with title := "abc" }]
      = [{ sampleTodo with title := "abc" }] ∧
    V1.specSearchMatches "a.c" { sampleTodo with title := "abc" } = false := by
  decide

/-- C9 amended: for a non-empty search string none of whose characters is
special in regular expressions, variant-1 List with that search filter
returns exactly the stored todos having the string as a case-insensitive
substring of the title, of the description, or of some tag, ordered by
createdAt descending. -/
theorem search_literal_is_substring (s : String) (store : List V1.Todo)
    (hs : s ≠ "")
    (hlit : s.data.all (fun c => !(regexSpecial.contains c)) = true) :
    V1.listTodos ⟨none, none, none, some s⟩ store
      = (store.filter (fun t => V1.specSearchMatches s t)).insertionSort V1.byCreatedAtDesc := by
  have hr : ∀ txt, regexTest s txt = substrCI s txt :=
    fun txt => regexTest_eq_substrCI s txt hlit
  unfold V1.listTodos
  congr 1
  apply List.filter_congr
  intro t _
  simp [V1.matchesFilter, truthy, hs, V1.searchMatches, V1.specSearchMatches, hr]

/-- C9 witness: searching "milk" finds the todo titled "Buy Milk". -/
theorem search_literal_is_substring_witness :
    (("milk" : String) ≠ "" ∧
      "milk".data.all (fun c => !(regexSpecial.contains c)) = true) ∧
    V1.listTodos ⟨none, none, none, some "milk"⟩ [sampleTodo]
      = ([sampleTodo].filter (fun t => V1.specSearchMatches "milk" t)).insertionSort
          V1.byCreatedAtDesc :=
  ⟨⟨by decide, by decide⟩,
    search_literal_is_substring "milk" [sampleTodo] (by decide) (by decide)⟩

/-- C10: the variant-1 completed filter is an exact string comparison with
"true": any other supplied value makes List return the todos whose
completed is false, never treating the value as true. -/
theorem completed_filter_exact_true (v : String) (store : List V1.Todo) (hv : v ≠ "true") :
    V1.listTodos ⟨none, none, some v, none⟩ store
      = (store.filter (fun t => t.completed = false)).insertionSort V1.byCreatedAtDesc ∧
    ∀ t ∈ V1.listTodos ⟨none, none, some v, none⟩ store, t.completed = false := by
  have hfil : store.filter (V1.matchesFilter ⟨none, none, some v, none⟩)
      = store.filter (fun t => decide (t.completed = false)) := by
    apply List.filter_congr
    intro t _
    simp [V1.matchesFilter, truthy, hv]
  constructor
  · unfold V1.listTodos
    rw [hfil]
  · intro t ht
    unfold V1.listTodos at ht
    rw [hfil] at ht
    have hmem := (List.perm_insertionSort V1.byCreatedAtDesc _).mem_iff.mp ht
    simpa using (List.mem_filter.mp hmem).2

/-- C10 witness: the value "True" filters for not-completed todos. -/
theorem completed_filter_exact_true_witness :
    (("True" : String) ≠ "true") ∧
    (V1.listTodos ⟨none, none, some "True", none⟩ [sampleTodo, sampleTodoDone]
      = ([sampleTodo, sampleTodoDone].filter (fun t => t.completed = false)).insertionSort
          V1.byCreatedAtDesc ∧
     ∀ t ∈ V1.listTodos ⟨none, none, some "True", none⟩ [sampleTodo, sampleTodoDone],
       t.completed = false) :=
  ⟨by decide, completed_filter_exact_true "True" [sampleTodo, sampleTodoDone] (by decide)⟩

/-- C2 counterexample: variant 2's list handler never reads the query, so
with a category filter that matches nothing it still returns the caller's
todo — refuting the claim that the supplied filters are applied. -/
theorem list_ignores_filters_cex :
    V2.getTodos "u1" ⟨some "b", none, none, none⟩ [sampleTodoA] = [sampleTodoA] ∧
    V2.specList "u1" ⟨some "b", none, none, none⟩ [sampleTodoA] = [] ∧
    V2.getTodos "u1" ⟨some "b", none, none, none⟩ [sampleTodoA]
      ≠ V2.specList "u1" ⟨some "b", none, none, none⟩ [sampleTodoA] := by
  decide

/-- C2 amended: variant-2 List returns exactly the stored todos whose
userId is the caller's, ordered by createdAt descending; the optional
filters are ignored — the result does not depend on the query at all. -/
theorem list_returns_owner_todos (uid : String) (q : Query) (store : List V2.Todo) :
    (V2.getTodos uid q store).Perm (store.filter (fun t => t.userId = uid)) ∧
    List.Pairwise V2.byCreatedAtDesc (V2.getTodos uid q store) ∧
    V2.getTodos uid q store = V2.getTodos uid ⟨none, none, none, none⟩ store :=
  ⟨List.perm_insertionSort V2.byCreatedAtDesc _,
    List.sorted_insertionSort V2.byCreatedAtDesc _, rfl⟩

end SmartTodo
